import Mathlib

/-!
Shallow embedding of the authentication fragment of NEMO
(src/NEMO/views/authentication.py and src/NEMO/migrations/0040_auto_20220504_1601.py).

The Django `User` model is represented by its two fields that this code
reads (`username`, `is_active`); the database is an explicit list of users.
The LDAP network is an explicit environment: each configured server comes
with a behaviour record giving the directory's response to the bind and
search operations the code performs.  Log output is made explicit as a list
of `LogEntry` values returned alongside each result.
-/

/-- The two fields of the Django `User` model that this code reads. -/
structure NUser where
  username : String
  is_active : Bool
deriving DecidableEq, Repr

/-- `User.objects.get(username=u)`: the row with the given (unique) username,
or `none` when `User.DoesNotExist` would be raised. -/
def findUser (db : List NUser) (u : String) : Option NUser :=
  db.find? (fun x => x.username = u)

/-- Lookup when the username may be `None` (Python); `username=None` matches
no row, so `User.DoesNotExist` is raised. -/
def findUserOpt (db : List NUser) (u : Option String) : Option NUser :=
  match u with
  | none => none
  | some s => findUser db s

/-- Python truthiness of an optional string: `None` and `""` are falsy. -/
def pyTruthy (o : Option String) : Bool :=
  o.getD "" ≠ ""

/-- One line written to `auth_logger`.  Constructors carry the data that
distinguishes the messages in the source; `ldapSuccess` and
`nginxSuccess` are `debug` lines, every other constructor is a `warning`. -/
inductive LogEntry where
  /-- LDAP backend, line 86: username not in the NEMO database. -/
  | unknownUsername (username : String)
  /-- LDAP backend, line 91: user is marked inactive. -/
  | inactiveUser (username : String)
  /-- LDAP backend, line 119: the privileged search returned no results. -/
  | searchNoResults (username : String) (url : String)
  /-- LDAP backend, line 135: `LDAPBindError`, incorrect password. -/
  | wrongPassword (username : String) (url : String)
  /-- LDAP backend, line 137: any other `LDAPException`. -/
  | ldapError (username : String) (url : String)
  /-- LDAP backend, line 132: successful LDAP authentication (debug). -/
  | ldapSuccess (username : String) (url : String)
  /-- Nginx backend, line 47: username does not exist in the NEMO database. -/
  | nginxUnknown (username : Option String)
  /-- Nginx backend, line 52: user is marked inactive. -/
  | nginxInactive (username : Option String)
  /-- Nginx backend, line 56: access granted (debug). -/
  | nginxSuccess (username : Option String)
deriving DecidableEq, Repr

/-- The four outcomes of a backend `authenticate` call: a returned user
object, a returned `None`, or one of the two exceptions the LDAP backend
raises (`User.DoesNotExist`, `InactiveUserError`). -/
inductive AuthOutcome where
  | user (u : NUser)
  | denied
  | raisedDoesNotExist
  | raisedInactiveUser
deriving DecidableEq, Repr

/-! ### Base64 and UTF-8 decoding (for the Nginx header backend)

`b64decode(...)` followed by `.decode()` in the source.  Well-formed
standard base64 is decoded; malformed input (which would raise in Python)
is modelled as failure (`none`) — no claim exercises malformed input past
the token checks that precede decoding. -/

/-- Value of a single base64 alphabet character. -/
def b64Val (c : Char) : Option Nat :=
  if 'A' ≤ c ∧ c ≤ 'Z' then some (c.toNat - 65)
  else if 'a' ≤ c ∧ c ≤ 'z' then some (c.toNat - 97 + 26)
  else if '0' ≤ c ∧ c ≤ '9' then some (c.toNat - 48 + 52)
  else if c = '+' then some 62
  else if c = '/' then some 63
  else none

/-- Decode a base64 character stream, four characters at a time, into the
byte values they encode.  Padding (`=`) is accepted only at the end. -/
def b64DecodeChars : List Char → Option (List Nat)
  | [] => some []
  | [a, b, '=', '='] => do
      let va ← b64Val a
      let vb ← b64Val b
      pure [va * 4 + vb / 16]
  | [a, b, c, '='] => do
      let va ← b64Val a
      let vb ← b64Val b
      let vc ← b64Val c
      pure [va * 4 + vb / 16, (vb % 16) * 16 + vc / 4]
  | a :: b :: c :: d :: rest => do
      let va ← b64Val a
      let vb ← b64Val b
      let vc ← b64Val c
      let vd ← b64Val d
      let tail ← b64DecodeChars rest
      pure ([va * 4 + vb / 16, (vb % 16) * 16 + vc / 4, (vc % 4) * 64 + vd] ++ tail)
  | _ => none

/-- Is a code point a scalar value (encodable as a `Char`)? -/
def validCodePoint (n : Nat) : Bool :=
  n < 0xD800 ∨ (0xE000 ≤ n ∧ n < 0x110000)

/-- Decode a UTF-8 byte sequence (Python `bytes.decode()`); `none` when the
bytes are not valid UTF-8.  Structural recursion on a fuel argument (one
unit per byte, so `fuel = length` always suffices) keeps the definition
kernel-reducible. -/
def utf8DecodeAux : Nat → List Nat → Option (List Char)
  | _, [] => some []
  | 0, _ :: _ => none
  | fuel + 1, b :: rest =>
      if b < 0x80 then
        (utf8DecodeAux fuel rest).map (fun cs => Char.ofNat b :: cs)
      else if 0xC2 ≤ b ∧ b < 0xE0 then
        match rest with
        | c1 :: rest2 =>
            if 0x80 ≤ c1 ∧ c1 < 0xC0 then
              let cp := (b - 0xC0) * 64 + (c1 - 0x80)
              if validCodePoint cp then
                (utf8DecodeAux fuel rest2).map (fun cs => Char.ofNat cp :: cs)
              else none
            else none
        | [] => none
      else if 0xE0 ≤ b ∧ b < 0xF0 then
        match rest with
        | c1 :: c2 :: rest2 =>
            if (0x80 ≤ c1 ∧ c1 < 0xC0) ∧ (0x80 ≤ c2 ∧ c2 < 0xC0) then
              let cp := (b - 0xE0) * 4096 + (c1 - 0x80) * 64 + (c2 - 0x80)
              if 0x800 ≤ cp ∧ validCodePoint cp then
                (utf8DecodeAux fuel rest2).map (fun cs => Char.ofNat cp :: cs)
              else none
            else none
        | _ => none
      else if 0xF0 ≤ b ∧ b < 0xF5 then
        match rest with
        | c1 :: c2 :: c3 :: rest2 =>
            if (0x80 ≤ c1 ∧ c1 < 0xC0) ∧ (0x80 ≤ c2 ∧ c2 < 0xC0) ∧ (0x80 ≤ c3 ∧ c3 < 0xC0) then
              let cp := (b - 0xF0) * 262144 + (c1 - 0x80) * 4096 + (c2 - 0x80) * 64 + (c3 - 0x80)
              if 0x10000 ≤ cp ∧ validCodePoint cp then
                (utf8DecodeAux fuel rest2).map (fun cs => Char.ofNat cp :: cs)
              else none
            else none
        | _ => none
      else none

/-- Decode a UTF-8 byte sequence. -/
def utf8DecodeList (bs : List Nat) : Option (List Char) :=
  utf8DecodeAux bs.length bs

/-- `b64decode(s).decode()`: base64-decode a string and interpret the bytes
as UTF-8. -/
def b64DecodeToString (s : String) : Option String :=
  (b64DecodeChars s.toList).bind (fun bytes => (utf8DecodeList bytes).map String.mk)

/-- Characters Python's argument-less `str.split()` splits on (ASCII range;
exotic Unicode whitespace is not modelled). -/
def pyIsSpace (c : Char) : Bool :=
  c = ' ' ∨ c = '\t' ∨ c = '\n' ∨ c = '\r' ∨ c = '\x0b' ∨ c = '\x0c'

/-- Accumulator worker for `pySplit`: the first argument is the remaining
input, the second the (reversed) characters of the token being built. -/
def pySplitAux : List Char → List Char → List String
  | [], acc => if acc = [] then [] else [String.mk acc.reverse]
  | c :: cs, acc =>
      if pyIsSpace c then
        if acc = [] then pySplitAux cs []
        else String.mk acc.reverse :: pySplitAux cs []
      else pySplitAux cs (c :: acc)

/-- Python `s.split()`: split on whitespace runs, discarding empty pieces. -/
def pySplit (s : String) : List String :=
  pySplitAux s.toList []

/-- Python `s.partition(sep)[0]` for a one-character separator: the part of
`s` before the first occurrence of `sep` (all of `s` when `sep` does not
occur). -/
def pyPartitionFst (s : String) (sep : Char) : String :=
  String.mk (s.toList.takeWhile (fun c => c ≠ sep))

/-! ### RemoteUserAuthenticationBackend

Subclass of Django's `RemoteUserBackend` with `create_unknown_user = False`
and a realm-stripping `clean_username`.  The inherited `authenticate` is
not in the excerpt; it is modelled below from Django's documented
`RemoteUserBackend` contract. -/

namespace RemoteUserAuthenticationBackend

/-- `create_unknown_user = False` (class attribute, line 25). -/
def create_unknown_user : Bool := false

/-- `clean_username` (lines 27-32): chops off Kerberos realm information,
the `@` and everything after it. -/
def clean_username (username : String) : String :=
  pyPartitionFst username '@'

/-- Modelled from the spec: Django's `RemoteUserBackend.authenticate`
(inherited, not part of the excerpt).  Per its documented contract it
returns `None` for a falsy `remote_user`; otherwise it cleans the
username, then — only when `create_unknown_user` is true — creates a
missing user row; a found (or created) user is returned when active.
The result is the returned user together with the database after the
call. -/
def authenticate (createUnknown : Bool) (db : List NUser) (remote_user : Option String) :
    Option NUser × List NUser :=
  if ¬ pyTruthy remote_user then (none, db)
  else
    let username := clean_username (remote_user.getD "")
    if createUnknown then
      match findUser db username with
      | some u => (if u.is_active then some u else none, db)
      | none =>
          let u : NUser := ⟨username, true⟩
          (some u, db ++ [u])
    else
      match findUser db username with
      | some u => (if u.is_active then some u else none, db)
      | none => (none, db)

end RemoteUserAuthenticationBackend

/-! ### NginxKerberosAuthorizationHeaderAuthenticationBackend -/

namespace NginxKerberosBackend

/-- `clean_username` (lines 59-71): returns `None` for a falsy header, a
header that does not split into exactly two whitespace-separated pieces,
or whose first piece is not `"Basic"`; otherwise base64-decodes the second
piece and returns the part before the first `:`.  (A Python decoding
exception is modelled as `none`; no claim exercises malformed base64.) -/
def clean_username (username : Option String) : Option String :=
  if ¬ pyTruthy username then none
  else
    let pieces := pySplit (username.getD "")
    if pieces.length ≠ 2 then none
    else if pieces.headD "" ≠ "Basic" then none
    else
      match b64DecodeToString (pieces.getD 1 "") with
      | none => none
      | some decoded => some (pyPartitionFst decoded ':')

/-- `authenticate` (lines 38-57): clean the `HTTP_AUTHORIZATION` header,
require the user to exist in the database and be active, logging a warning
and returning `None` otherwise.  Result: returned user and the log lines
written. -/
def authenticate (db : List NUser) (http_authorization : Option String) :
    Option NUser × List LogEntry :=
  let username := clean_username http_authorization
  match findUserOpt db username with
  | none => (none, [LogEntry.nginxUnknown username])
  | some user =>
      if ¬ user.is_active then (none, [LogEntry.nginxInactive username])
      else (some user, [LogEntry.nginxSuccess username])

end NginxKerberosBackend

/-! ### LDAPAuthenticationBackend

The network is an explicit environment: each configured server descriptor
is paired with an `LDAPBehavior` giving the directory's response to each
operation the code performs (`Connection` construction with
`raise_exceptions=True` auto-binds, so bind failures surface as
exceptions; a `search` that raises is folded into the privileged-bind
outcome). -/

/-- One entry of `settings.LDAP_SERVERS`.  `url` and `base_dn` are accessed
with `server[...]` (required); the rest with `server.get(...)` (optional,
`none` = key absent). -/
structure ServerConfig where
  url : String
  base_dn : String
  port : Option Nat := none
  use_ssl : Option Bool := none
  bind_as_authentication : Option Bool := none
  domain : Option String := none
  bind_username : Option String := none
  bind_password : Option String := none
  search_username_field : Option String := none
  search_attribute : Option String := none
  certificate : Option String := none
deriving Repr

/-- Outcome of constructing an auto-binding `Connection`: success, an
`LDAPBindError`, or any other `LDAPException`. -/
inductive BindOutcome where
  | ok
  | bindError
  | otherError
deriving DecidableEq, Repr

/-- The directory server's behaviour, as seen through the operations the
code performs: the privileged bind (given the bind user, bind password and
whether SIMPLE authentication was selected), the search for the user
(returning the matching entry's `dn`, or `none` when there are no results
or the requested attribute is missing), and the bind as the user (given
the bind user string and the password). -/
structure LDAPBehavior where
  privilegedBind : Option String → Option String → Bool → BindOutcome
  searchResult : String → Option String
  userBind : String → String → BindOutcome

/-- One iteration of the `for server in settings.LDAP_SERVERS` loop (lines
97-137): `.ok ()` means the user bind succeeded (`break`); `.error e`
means the iteration appended error message `e` and moved on to the next
server (`continue`, or falling out of an `except` clause). -/
def ldapTryServer (username password : String) (sc : ServerConfig) (b : LDAPBehavior) :
    Except LogEntry Unit :=
  let bind_as_authentication := sc.bind_as_authentication.getD true
  let domain := sc.domain
  let ldap_bind_user :=
    if pyTruthy domain then domain.getD "" ++ "\\" ++ username else username
  if bind_as_authentication = false then
    -- binding to LDAP first, then search for user
    let bind_username :=
      if pyTruthy domain ∧ pyTruthy sc.bind_username then
        some (domain.getD "" ++ "\\" ++ sc.bind_username.getD "")
      else sc.bind_username
    let bind_password := sc.bind_password
    let simple_auth := pyTruthy bind_username ∧ pyTruthy bind_password
    match b.privilegedBind bind_username bind_password simple_auth with
    | BindOutcome.bindError => Except.error (LogEntry.wrongPassword username sc.url)
    | BindOutcome.otherError => Except.error (LogEntry.ldapError username sc.url)
    | BindOutcome.ok =>
        match b.searchResult username with
        | none =>
            -- no results, unbind and continue to next server
            Except.error (LogEntry.searchNoResults username sc.url)
        | some dn =>
            -- we got results; bind with the dn found by the search
            match b.userBind dn password with
            | BindOutcome.ok => Except.ok ()
            | BindOutcome.bindError => Except.error (LogEntry.wrongPassword username sc.url)
            | BindOutcome.otherError => Except.error (LogEntry.ldapError username sc.url)
  else
    match b.userBind ldap_bind_user password with
    | BindOutcome.ok => Except.ok ()
    | BindOutcome.bindError => Except.error (LogEntry.wrongPassword username sc.url)
    | BindOutcome.otherError => Except.error (LogEntry.ldapError username sc.url)

/-- The whole server loop (lines 94-137).  Returns
`(is_authenticated_with_ldap, urls of the servers the loop reached (in
order), the accumulated errors list, the log lines written during the
loop)`.  Only the success line (132) is written during the loop; error
messages are merely accumulated. -/
def ldapLoop (username password : String) :
    List (ServerConfig × LDAPBehavior) → Bool × List String × List LogEntry × List LogEntry
  | [] => (false, [], [], [])
  | (sc, b) :: rest =>
      match ldapTryServer username password sc b with
      | Except.ok _ => (true, [sc.url], [], [LogEntry.ldapSuccess username sc.url])
      | Except.error e =>
          let r := ldapLoop username password rest
          (r.1, sc.url :: r.2.1, e :: r.2.2.1, r.2.2.2)

/-- Did this loop iteration authenticate the user (`break`)? -/
def exceptIsOk : Except LogEntry Unit → Bool
  | Except.ok _ => true
  | Except.error _ => false

/-- `LDAPAuthenticationBackend.authenticate` (lines 78-144).  Result:
`(outcome, urls of the servers contacted, log lines written)`.  A falsy
username or password returns `None` at once; an unknown username re-raises
`User.DoesNotExist`; an inactive user raises `InactiveUserError`; then the
server loop runs, and the accumulated errors are written to the log only
when no server authenticated the user. -/
def ldapAuthenticate (db : List NUser) (username password : Option String)
    (servers : List (ServerConfig × LDAPBehavior)) :
    AuthOutcome × List String × List LogEntry :=
  if ¬ pyTruthy username ∨ ¬ pyTruthy password then (AuthOutcome.denied, [], [])
  else
    let u := username.getD ""
    match findUser db u with
    | none => (AuthOutcome.raisedDoesNotExist, [], [LogEntry.unknownUsername u])
    | some user =>
        if ¬ user.is_active then (AuthOutcome.raisedInactiveUser, [], [LogEntry.inactiveUser u])
        else
          let r := ldapLoop u (password.getD "") servers
          if r.1 then (AuthOutcome.user user, r.2.1, r.2.2.2)
          else (AuthOutcome.denied, r.2.1, r.2.2.2 ++ r.2.2.1)

/-! ### Login view (`login_user`, lines 147-183) -/

/-- The HTTP response a view returns, as far as this code distinguishes
them: a redirect, the `login.html` template with its context dictionary
(`login_banner`, `user_name_or_password_incorrect`), or the
`authorization_failed.html` template with its page content. -/
inductive Response where
  | redirect (target : String)
  | loginPage (banner : Option String) (user_name_or_password_incorrect : Bool)
  | authorizationFailedPage (content : Option String)
deriving DecidableEq, Repr

/-- Dotted path of the remote-user backend in `AUTHENTICATION_BACKENDS`. -/
def remoteBackendPath : String := "NEMO.views.authentication.RemoteUserAuthenticationBackend"

/-- Dotted path of the Nginx header backend in `AUTHENTICATION_BACKENDS`. -/
def nginxBackendPath : String :=
  "NEMO.views.authentication.NginxKerberosAuthorizationHeaderAuthenticationBackend"

/-- `authorization_failed` (lines 192-194): render the authorization-failed
page with the `authorization_failed.html` media contents. -/
def authorization_failed (authPage : Option String) : Response :=
  Response.authorizationFailedPage authPage

/-- The part of a request that `login_user` reads. -/
structure LoginRequest where
  /-- `request.method`; the decorator restricts it to GET or POST. -/
  method : String
  /-- `request.POST.get('username', '')`, as `none` when absent. -/
  post_username : Option String := none
  /-- `request.POST.get('password', '')`, as `none` when absent. -/
  post_password : Option String := none
  /-- `request.GET[REDIRECT_FIELD_NAME]`; `none` = the key is absent. -/
  next_param : Option String := none
  /-- `request.user.is_authenticated`. -/
  user_is_authenticated : Bool := false

/-- Lines 160-183 of `login_user`: the form flow after the header-backend
guard.  `resolves` is the application's URL resolver (`resolve(next_page)`
succeeds), `landing` is `reverse('landing')`, `banner` the
`login_banner.html` media contents, `authPage` the
`authorization_failed.html` media contents, and `authFn` the outcome of
Django's `authenticate()` dispatch over the configured backends as a
function of the posted credentials. -/
def loginFormFlow (resolves : String → Bool) (landing : String)
    (banner authPage : Option String) (authFn : String → String → AuthOutcome)
    (req : LoginRequest) : Response :=
  if req.method = "GET" then Response.loginPage banner false
  else
    let username := req.post_username.getD ""
    let password := req.post_password.getD ""
    match authFn username password with
    | AuthOutcome.raisedDoesNotExist => authorization_failed authPage
    | AuthOutcome.raisedInactiveUser => authorization_failed authPage
    | AuthOutcome.user _ =>
        -- make sure the next page is a legitimate URL for NEMO;
        -- an absent parameter (KeyError) or a failing resolve() both fall
        -- back to the landing page
        let next_page :=
          match req.next_param with
          | some np => if resolves np then np else landing
          | none => landing
        Response.redirect next_page
    | AuthOutcome.denied => Response.loginPage banner true

/-- `login_user` (lines 149-183): when a remote-user or Nginx header
backend is configured, an already-authenticated user is redirected to the
landing page, and if no other backend remains in
`AUTHENTICATION_BACKENDS` the authorization-failed page is returned;
otherwise the form flow runs. -/
def login_user (backends : List String) (resolves : String → Bool) (landing : String)
    (banner authPage : Option String) (authFn : String → String → AuthOutcome)
    (req : LoginRequest) : Response :=
  if remoteBackendPath ∈ backends ∨ nginxBackendPath ∈ backends then
    if req.user_is_authenticated then Response.redirect landing
    else
      let fallback := backends.filter
        (fun b => ¬ (b = remoteBackendPath ∨ b = nginxBackendPath))
      if fallback.length = 0 then authorization_failed authPage
      else loginFormFlow resolves landing banner authPage authFn req
  else loginFormFlow resolves landing banner authPage authFn req

/-! ### Migration 0040_auto_20220504_1601 -/

/-- A Django model field declaration, as far as this migration uses one:
the field class name, its `default`, and its `help_text`. -/
structure FieldSpec where
  kind : String
  fieldDefault : Bool
  help_text : String
deriving DecidableEq, Repr

/-- A migration operation: `migrations.AddField` or
`migrations.AlterField`, with the target model, field name and field. -/
inductive MigrationOp where
  | addField (model_name field_name : String) (field : FieldSpec)
  | alterField (model_name field_name : String) (field : FieldSpec)
deriving DecidableEq, Repr

/-- The model a migration operation targets. -/
def MigrationOp.model : MigrationOp → String
  | MigrationOp.addField m _ _ => m
  | MigrationOp.alterField m _ _ => m

/-- The field name a migration operation targets. -/
def MigrationOp.fieldName : MigrationOp → String
  | MigrationOp.addField _ f _ => f
  | MigrationOp.alterField _ f _ => f

/-- `dependencies` of migration 0040. -/
def migration_0040_dependencies : List (String × String) :=
  [("NEMO", "0039_version_4_1_0")]

/-- `operations` of migration 0040 (lines 12-23 of the migration file). -/
def migration_0040_operations : List MigrationOp :=
  [ MigrationOp.addField "landingpagechoice" "hide_from_staff"
      { kind := "BooleanField", fieldDefault := false,
        help_text := "Hides this choice from normal users, staff and technicians. When checked, only facility managers and super-users can see the choice" },
    MigrationOp.alterField "landingpagechoice" "hide_from_users"
      { kind := "BooleanField", fieldDefault := false,
        help_text := "Hides this choice from normal users. When checked, only staff, technicians, facility managers and super-users can see the choice" } ]

/-! ### Concrete fixtures

A small database and LDAP environment used to instantiate the theorems on
concrete inputs. -/

/-- The user row `alice`, active. -/
def testAlice : NUser := ⟨"alice", true⟩

/-- A one-user database. -/
def testDb : List NUser := [testAlice]

/-- A server descriptor configured for search-then-bind. -/
def srvA : ServerConfig :=
  { url := "ldap1", base_dn := "dc=example,dc=org", bind_as_authentication := some false }

/-- A server descriptor with all optional keys absent (bind as
authentication, the default). -/
def srvB : ServerConfig := { url := "ldap2", base_dn := "dc=example,dc=com" }

/-- A directory that accepts every bind and finds every user. -/
def behaviorAccept : LDAPBehavior :=
  ⟨fun _ _ _ => BindOutcome.ok, fun u => some ("cn=" ++ u), fun _ _ => BindOutcome.ok⟩

/-- A directory whose privileged bind succeeds but whose search finds
nothing. -/
def behaviorSearchMiss : LDAPBehavior :=
  ⟨fun _ _ _ => BindOutcome.ok, fun _ => none, fun _ _ => BindOutcome.ok⟩

/-- A directory that rejects the user's bind (`LDAPBindError`). -/
def behaviorReject : LDAPBehavior :=
  ⟨fun _ _ _ => BindOutcome.ok, fun u => some ("cn=" ++ u), fun _ _ => BindOutcome.bindError⟩

/-! ## Theorems -/

/-- Helper: a loop iteration with `exceptIsOk` true returned `Except.ok ()`. -/
theorem exceptIsOk_true {e : Except LogEntry Unit} (h : exceptIsOk e = true) :
    e = Except.ok () := by
  cases e with
  | ok v => cases v; rfl
  | error l => simp [exceptIsOk] at h

/-- C7: migration 0040 consists of exactly two operations, both on the
`landingpagechoice` model: it adds `hide_from_staff` as a `BooleanField`
with default `False` and alters `hide_from_users` to a `BooleanField` with
default `False`, and touches no other field or model. -/
theorem migration_0040_only_two_boolean_flags :
    ∃ staffField usersField : FieldSpec,
      migration_0040_operations =
        [MigrationOp.addField "landingpagechoice" "hide_from_staff" staffField,
         MigrationOp.alterField "landingpagechoice" "hide_from_users" usersField] ∧
      staffField.kind = "BooleanField" ∧ staffField.fieldDefault = false ∧
      usersField.kind = "BooleanField" ∧ usersField.fieldDefault = false := by
  exact ⟨_, _, rfl, rfl, rfl, rfl, rfl⟩

/-- C8: a missing or empty username or password makes the LDAP backend
return `None` at once — no exception is raised, nothing is logged, and no
server is contacted; the result does not depend on the database or the
configured servers at all. -/
theorem ldap_authenticate_falsy_credentials (db : List NUser)
    (servers : List (ServerConfig × LDAPBehavior)) (username password : Option String)
    (h : username.getD "" = "" ∨ password.getD "" = "") :
    ldapAuthenticate db username password servers = (AuthOutcome.denied, [], []) := by
  rcases h with h | h <;> simp [ldapAuthenticate, pyTruthy, h]

/-- Witness for C8 at a concrete input: a present username with a missing
password, a non-empty database and a configured server. -/
theorem ldap_authenticate_falsy_credentials_witness :
    ldapAuthenticate testDb (some "alice") none [(srvB, behaviorAccept)] =
      (AuthOutcome.denied, [], []) :=
  ldap_authenticate_falsy_credentials testDb [(srvB, behaviorAccept)] (some "alice") none
    (Or.inr rfl)

/-- C10: the remote-user backend sets `create_unknown_user = False`, so a
remote-user-asserted username with no matching `User` row fails
authentication and leaves the database unchanged. -/
theorem remote_user_unknown_username_no_creation (db : List NUser) (remote_user : String)
    (h : findUser db (RemoteUserAuthenticationBackend.clean_username remote_user) = none) :
    RemoteUserAuthenticationBackend.create_unknown_user = false ∧
    RemoteUserAuthenticationBackend.authenticate
        RemoteUserAuthenticationBackend.create_unknown_user db (some remote_user) =
      (none, db) := by
  refine ⟨rfl, ?_⟩
  by_cases hru : pyTruthy (some remote_user) = true
  · simp [RemoteUserAuthenticationBackend.authenticate,
      RemoteUserAuthenticationBackend.create_unknown_user, hru, h]
  · simp [RemoteUserAuthenticationBackend.authenticate, hru]

/-- Witness for C10: `bob@REALM` cleans to `bob`, which is not in the
one-user database; authentication fails and the database is unchanged. -/
theorem remote_user_unknown_username_no_creation_witness :
    RemoteUserAuthenticationBackend.create_unknown_user = false ∧
    RemoteUserAuthenticationBackend.authenticate
        RemoteUserAuthenticationBackend.create_unknown_user testDb (some "bob@REALM") =
      (none, testDb) :=
  remote_user_unknown_username_no_creation testDb "bob@REALM" (by decide)

/-- C9: an `HTTP_AUTHORIZATION` header that is absent, empty, does not
split into exactly two whitespace-separated tokens, or whose first token
is not `Basic` makes `clean_username` return `None`, and the Nginx
backend then matches no user and denies access. -/
theorem nginx_malformed_header_denied (db : List NUser) (header : Option String)
    (h : header = none ∨ header = some "" ∨
      ∃ s, header = some s ∧
        ((pySplit s).length ≠ 2 ∨ (pySplit s).headD "" ≠ "Basic")) :
    NginxKerberosBackend.clean_username header = none ∧
    (NginxKerberosBackend.authenticate db header).1 = none := by
  have hc : NginxKerberosBackend.clean_username header = none := by
    rcases h with rfl | rfl | ⟨s, rfl, h⟩
    · rfl
    · rfl
    · by_cases hs : s = ""
      · simp [NginxKerberosBackend.clean_username, hs, pyTruthy]
      · rcases h with h | h
        · simp [NginxKerberosBackend.clean_username, pyTruthy, hs, h]
        · have h' : (pySplit s).head?.getD "" ≠ "Basic" := by
            have he : (pySplit s).headD "" = (pySplit s).head?.getD "" := by
              cases pySplit s <;> rfl
            rw [he] at h; exact h
          by_cases hl : (pySplit s).length = 2
          · simp [NginxKerberosBackend.clean_username, pyTruthy, hs, hl, h']
          · simp [NginxKerberosBackend.clean_username, pyTruthy, hs, hl]
  refine ⟨hc, ?_⟩
  simp [NginxKerberosBackend.authenticate, hc, findUserOpt]

/-- Witness for C9: a header whose first token is `Bearer`, against a
non-empty database. -/
theorem nginx_malformed_header_denied_witness :
    NginxKerberosBackend.clean_username (some "Bearer YWxpY2U6c2VjcmV0") = none ∧
    (NginxKerberosBackend.authenticate testDb (some "Bearer YWxpY2U6c2VjcmV0")).1 = none :=
  nginx_malformed_header_denied testDb (some "Bearer YWxpY2U6c2VjcmV0")
    (Or.inr (Or.inr ⟨"Bearer YWxpY2U6c2VjcmV0", rfl, Or.inr (by decide)⟩))

/-- C2 (failing input): for the header `Basic` followed by the base64
encoding of `user@EXAMPLE.COM:password`, `clean_username` base64-decodes
the value and takes the part before the colon, but returns
`user@EXAMPLE.COM` — the realm suffix (`@` and everything after) is NOT
stripped, although stripping it (as the claim and the function's own
docstring describe) would give `user`. -/
theorem nginx_clean_username_keeps_realm :
    NginxKerberosBackend.clean_username
        (some "Basic dXNlckBFWEFNUExFLkNPTTpwYXNzd29yZA==") =
      some "user@EXAMPLE.COM" ∧
    pyPartitionFst "user@EXAMPLE.COM" '@' = "user" := by decide

/-- C5: when the remote-user or the Nginx header backend is configured,
the requesting user is not authenticated, and no other backend remains in
`AUTHENTICATION_BACKENDS`, `login_user` returns the authorization-failed
page instead of rendering the login form. -/
theorem login_user_header_backend_no_fallback (backends : List String)
    (resolves : String → Bool) (landing : String) (banner authPage : Option String)
    (authFn : String → String → AuthOutcome) (req : LoginRequest)
    (hconf : remoteBackendPath ∈ backends ∨ nginxBackendPath ∈ backends)
    (hanon : req.user_is_authenticated = false)
    (hnofb : backends.filter (fun b => ¬ (b = remoteBackendPath ∨ b = nginxBackendPath)) = []) :
    login_user backends resolves landing banner authPage authFn req =
      authorization_failed authPage := by
  simp only [login_user, hconf, if_true, iff_true, hanon, Bool.false_eq_true, if_false,
    hnofb, List.length_nil, if_pos]

/-- Witness for C5: only the Nginx header backend is configured and the
request is unauthenticated GET. -/
theorem login_user_header_backend_no_fallback_witness :
    login_user [nginxBackendPath] (fun _ => false) "landing" none none
        (fun _ _ => AuthOutcome.denied) { method := "GET" } =
      authorization_failed none :=
  login_user_header_backend_no_fallback [nginxBackendPath] (fun _ => false) "landing"
    none none (fun _ _ => AuthOutcome.denied) { method := "GET" }
    (Or.inr (List.mem_singleton.mpr rfl)) rfl (by decide)

/-- C6: a successful POST login redirects to the redirect-target query
parameter exactly when that target resolves against the application's URL
resolver; a target that fails to resolve, or an absent parameter, falls
back to the landing page.  The reachability hypothesis states that the
header-backend guard at the top of `login_user` does not intercept the
request. -/
theorem login_user_redirect_validated (backends : List String) (resolves : String → Bool)
    (landing : String) (banner authPage : Option String)
    (authFn : String → String → AuthOutcome) (req : LoginRequest) (u : NUser)
    (hpost : req.method = "POST")
    (hreach : (remoteBackendPath ∈ backends ∨ nginxBackendPath ∈ backends) →
      req.user_is_authenticated = false ∧
      backends.filter (fun b => ¬ (b = remoteBackendPath ∨ b = nginxBackendPath)) ≠ [])
    (hauth : authFn (req.post_username.getD "") (req.post_password.getD "") =
      AuthOutcome.user u) :
    login_user backends resolves landing banner authPage authFn req =
      Response.redirect
        (match req.next_param with
         | some np => if resolves np then np else landing
         | none => landing) := by
  have hflow : loginFormFlow resolves landing banner authPage authFn req =
      Response.redirect
        (match req.next_param with
         | some np => if resolves np then np else landing
         | none => landing) := by
    simp [loginFormFlow, hpost, hauth]
  by_cases hc : remoteBackendPath ∈ backends ∨ nginxBackendPath ∈ backends
  · obtain ⟨h1, h2⟩ := hreach hc
    have h2' : (backends.filter
        (fun b => ¬ (b = remoteBackendPath ∨ b = nginxBackendPath))).length ≠ 0 := by
      simpa [List.length_eq_zero] using h2
    simp only [login_user, hc, if_true, iff_true, h1, Bool.false_eq_true, if_false,
      if_neg h2']
    exact hflow
  · simp only [login_user, hc, if_false, iff_false]
    exact hflow

/-- Witness for C6, exercising both directions of the validation: with a
resolvable target the redirect goes there; with the same configuration and
an absent target it goes to the landing page (second application shown by
instantiating the request without the parameter). -/
theorem login_user_redirect_validated_witness :
    login_user [] (fun s => s = "/calendar") "/landing" none none
        (fun _ _ => AuthOutcome.user testAlice)
        { method := "POST", next_param := some "/calendar" } =
      Response.redirect "/calendar" :=
  (login_user_redirect_validated [] (fun s => s = "/calendar") "/landing" none none
      (fun _ _ => AuthOutcome.user testAlice)
      { method := "POST", next_param := some "/calendar" } testAlice rfl
      (fun hc => absurd hc (by decide)) rfl).trans (by decide)

/-- C4: a POST login attempt whose `authenticate()` dispatch does not
produce a user — unknown username or inactive account (the exceptions the
LDAP backend raises), wrong password or unreachable server (a `None`
result) — receives only one of the two generic responses (the
authorization-failed page or the login form with the incorrect-credentials
flag); the two exception reasons are indistinguishable in the response.
The last conjunct shows the specific reason going to the log instead: an
unknown username makes the LDAP backend log it and raise, independently of
the server configuration. -/
theorem login_failure_generic_response (resolves : String → Bool) (landing : String)
    (banner authPage : Option String) (authFn : String → String → AuthOutcome)
    (req : LoginRequest)
    (hpost : req.method = "POST")
    (hfail : ∀ u : NUser,
      authFn (req.post_username.getD "") (req.post_password.getD "") ≠ AuthOutcome.user u) :
    (loginFormFlow resolves landing banner authPage authFn req =
        authorization_failed authPage ∨
     loginFormFlow resolves landing banner authPage authFn req =
        Response.loginPage banner true) ∧
    loginFormFlow resolves landing banner authPage
        (fun _ _ => AuthOutcome.raisedDoesNotExist) req =
      loginFormFlow resolves landing banner authPage
        (fun _ _ => AuthOutcome.raisedInactiveUser) req ∧
    (∀ (db : List NUser) (uname pw : String) (servers : List (ServerConfig × LDAPBehavior)),
      uname ≠ "" → pw ≠ "" → findUser db uname = none →
      ldapAuthenticate db (some uname) (some pw) servers =
        (AuthOutcome.raisedDoesNotExist, [], [LogEntry.unknownUsername uname])) := by
  refine ⟨?_, by simp [loginFormFlow, hpost], ?_⟩
  · cases hfn : authFn (req.post_username.getD "") (req.post_password.getD "") with
    | user u => exact absurd hfn (hfail u)
    | denied => right; simp [loginFormFlow, hpost, hfn]
    | raisedDoesNotExist => left; simp [loginFormFlow, hpost, hfn, authorization_failed]
    | raisedInactiveUser => left; simp [loginFormFlow, hpost, hfn, authorization_failed]
  · intro db uname pw servers hu hp hfind
    simp [ldapAuthenticate, pyTruthy, hu, hp, hfind]

/-- Witness for C4: a failing dispatch (wrong password, `None` result) on a
POST request gets the login page with the incorrect-credentials flag. -/
theorem login_failure_generic_response_witness :
    (loginFormFlow (fun _ => false) "/landing" none none
        (fun _ _ => AuthOutcome.denied) { method := "POST" } =
        authorization_failed none ∨
     loginFormFlow (fun _ => false) "/landing" none none
        (fun _ _ => AuthOutcome.denied) { method := "POST" } =
        Response.loginPage none true) :=
  (login_failure_generic_response (fun _ => false) "/landing" none none
      (fun _ _ => AuthOutcome.denied) { method := "POST" } rfl
      (fun _ h => AuthOutcome.noConfusion h)).1

/-- Helper: when every server in the list fails (error or no result), the
loop ends with `is_authenticated_with_ldap` still false. -/
theorem ldapLoop_all_fail (u p : String) :
    ∀ (servers : List (ServerConfig × LDAPBehavior)),
      (∀ sc b, (sc, b) ∈ servers → exceptIsOk (ldapTryServer u p sc b) = false) →
      (ldapLoop u p servers).1 = false
  | [], _ => rfl
  | (sc, b) :: tl, h => by
      have hhd := h sc b (List.mem_cons_self _ _)
      cases htry : ldapTryServer u p sc b with
      | ok v => rw [htry] at hhd; simp [exceptIsOk] at hhd
      | error e =>
          have ht := ldapLoop_all_fail u p tl
            (fun sc' b' hq => h sc' b' (List.mem_cons_of_mem _ hq))
          simp [ldapLoop, htry, ht]

/-- Helper: when every server before some server fails and that server
accepts the bind, the loop stops there: it reports success and has
contacted exactly the failing prefix plus the accepting server. -/
theorem ldapLoop_prefix_success (u p : String) :
    ∀ (pre : List (ServerConfig × LDAPBehavior)) (sc : ServerConfig) (b : LDAPBehavior)
      (post : List (ServerConfig × LDAPBehavior)),
      (∀ sc' b', (sc', b') ∈ pre → exceptIsOk (ldapTryServer u p sc' b') = false) →
      exceptIsOk (ldapTryServer u p sc b) = true →
      (ldapLoop u p (pre ++ (sc, b) :: post)).1 = true ∧
      (ldapLoop u p (pre ++ (sc, b) :: post)).2.1 = pre.map (fun q => q.1.url) ++ [sc.url]
  | [], sc, b, post, _, hok => by
      have hx := exceptIsOk_true hok
      simp [ldapLoop, hx]
  | (sc0, b0) :: tl, sc, b, post, hpre, hok => by
      have hhd := hpre sc0 b0 (List.mem_cons_self _ _)
      cases htry : ldapTryServer u p sc0 b0 with
      | ok v => rw [htry] at hhd; simp [exceptIsOk] at hhd
      | error e =>
          have ih := ldapLoop_prefix_success u p tl sc b post
            (fun sc' b' hq => hpre sc' b' (List.mem_cons_of_mem _ hq)) hok
          simp [ldapLoop, htry, ih.1, ih.2]

/-- C1: for an existing active user with non-empty credentials, the LDAP
backend tries the configured servers in order; the first server that
accepts the user's bind ends the evaluation (exactly the failing prefix
and that server are contacted) and the backend returns the user object,
and when no server accepts the credential the backend returns `None`. -/
theorem ldap_first_accepting_server_wins (db : List NUser) (uname pw : String)
    (user : NUser) (servers : List (ServerConfig × LDAPBehavior))
    (hu : uname ≠ "") (hp : pw ≠ "")
    (hfind : findUser db uname = some user) (hact : user.is_active = true) :
    (∀ pre sc b post, servers = pre ++ (sc, b) :: post →
       (∀ q ∈ pre, exceptIsOk (ldapTryServer uname pw q.1 q.2) = false) →
       exceptIsOk (ldapTryServer uname pw sc b) = true →
       (ldapAuthenticate db (some uname) (some pw) servers).1 = AuthOutcome.user user ∧
       (ldapAuthenticate db (some uname) (some pw) servers).2.1 =
         pre.map (fun q => q.1.url) ++ [sc.url]) ∧
    ((∀ q ∈ servers, exceptIsOk (ldapTryServer uname pw q.1 q.2) = false) →
       (ldapAuthenticate db (some uname) (some pw) servers).1 = AuthOutcome.denied) := by
  have hred : ldapAuthenticate db (some uname) (some pw) servers =
      (if (ldapLoop uname pw servers).1 then
        (AuthOutcome.user user, (ldapLoop uname pw servers).2.1,
          (ldapLoop uname pw servers).2.2.2)
      else
        (AuthOutcome.denied, (ldapLoop uname pw servers).2.1,
          (ldapLoop uname pw servers).2.2.2 ++ (ldapLoop uname pw servers).2.2.1)) := by
    simp [ldapAuthenticate, pyTruthy, hu, hp, hfind, hact]
  constructor
  · intro pre sc b post hsplit hpre hok
    subst hsplit
    have hloop := ldapLoop_prefix_success uname pw pre sc b post
      (fun sc' b' hmem => hpre (sc', b') hmem) hok
    rw [hred, if_pos hloop.1]
    exact ⟨rfl, hloop.2⟩
  · intro hall
    have hloop := ldapLoop_all_fail uname pw servers
      (fun sc' b' hmem => hall (sc', b') hmem)
    rw [hred, if_neg (by simp [hloop])]

/-- Witness for C1: server `ldap1` fails (search finds nothing), server
`ldap2` accepts; the backend returns the user object having contacted both
servers in order and stopping at `ldap2`. -/
theorem ldap_first_accepting_server_wins_witness :
    (ldapAuthenticate testDb (some "alice") (some "pw")
        [(srvA, behaviorSearchMiss), (srvB, behaviorAccept)]).1 =
      AuthOutcome.user testAlice ∧
    (ldapAuthenticate testDb (some "alice") (some "pw")
        [(srvA, behaviorSearchMiss), (srvB, behaviorAccept)]).2.1 = ["ldap1", "ldap2"] := by
  have h := ldap_first_accepting_server_wins testDb "alice" "pw" testAlice
      [(srvA, behaviorSearchMiss), (srvB, behaviorAccept)]
      (by decide) (by decide) (by decide) (by decide)
  have h1 := h.1 [(srvA, behaviorSearchMiss)] srvB behaviorAccept [] rfl
      (by decide) (by decide)
  refine ⟨h1.1, ?_⟩
  rw [h1.2]
  rfl

/-- C3 (counterexample): with a first server whose privileged search finds
no entry and a second server that then accepts the bind, the backend
continues to the second server — but NO log line is written for the first
server's lookup failure: the only line written is the success debug line.
This refutes the claim that the failure is logged in that situation (the
failure message is merely recorded, and discarded once a later server
succeeds). -/
theorem ldap_search_failure_not_logged :
    (ldapAuthenticate testDb (some "alice") (some "pw")
        [(srvA, behaviorSearchMiss), (srvB, behaviorAccept)]).2.1 = ["ldap1", "ldap2"] ∧
    (ldapAuthenticate testDb (some "alice") (some "pw")
        [(srvA, behaviorSearchMiss), (srvB, behaviorAccept)]).2.2 =
      [LogEntry.ldapSuccess "alice" "ldap2"] ∧
    ¬ LogEntry.searchNoResults "alice" "ldap1" ∈
      (ldapAuthenticate testDb (some "alice") (some "pw")
        [(srvA, behaviorSearchMiss), (srvB, behaviorAccept)]).2.2 := by
  refine ⟨by decide, by decide, by decide⟩

/-- C3 (amended): when a server's privileged search returns no matching
entry, the backend records a failure message for that server and continues
evaluating the subsequent servers; the recorded message is written to the
log (only) when no server ends up accepting the authentication. -/
theorem ldap_search_failure_recorded_and_continues (db : List NUser) (uname pw : String)
    (user : NUser) (sc : ServerConfig) (b : LDAPBehavior)
    (rest : List (ServerConfig × LDAPBehavior))
    (hu : uname ≠ "") (hp : pw ≠ "")
    (hfind : findUser db uname = some user) (hact : user.is_active = true)
    (hbaa : sc.bind_as_authentication = some false)
    (hbind : ∀ bu bp sa, b.privilegedBind bu bp sa = BindOutcome.ok)
    (hsearch : b.searchResult uname = none) :
    (ldapAuthenticate db (some uname) (some pw) ((sc, b) :: rest)).2.1 =
      sc.url :: (ldapLoop uname pw rest).2.1 ∧
    ((ldapAuthenticate db (some uname) (some pw) ((sc, b) :: rest)).1 =
        AuthOutcome.denied →
      LogEntry.searchNoResults uname sc.url ∈
        (ldapAuthenticate db (some uname) (some pw) ((sc, b) :: rest)).2.2) := by
  have htry : ldapTryServer uname pw sc b =
      Except.error (LogEntry.searchNoResults uname sc.url) := by
    simp [ldapTryServer, hbaa, hbind, hsearch]
  have hred : ldapAuthenticate db (some uname) (some pw) ((sc, b) :: rest) =
      (if (ldapLoop uname pw ((sc, b) :: rest)).1 then
        (AuthOutcome.user user, (ldapLoop uname pw ((sc, b) :: rest)).2.1,
          (ldapLoop uname pw ((sc, b) :: rest)).2.2.2)
      else
        (AuthOutcome.denied, (ldapLoop uname pw ((sc, b) :: rest)).2.1,
          (ldapLoop uname pw ((sc, b) :: rest)).2.2.2 ++
            (ldapLoop uname pw ((sc, b) :: rest)).2.2.1)) := by
    simp [ldapAuthenticate, pyTruthy, hu, hp, hfind, hact]
  have hloop : ldapLoop uname pw ((sc, b) :: rest) =
      ((ldapLoop uname pw rest).1, sc.url :: (ldapLoop uname pw rest).2.1,
       LogEntry.searchNoResults uname sc.url :: (ldapLoop uname pw rest).2.2.1,
       (ldapLoop uname pw rest).2.2.2) := by
    simp [ldapLoop, htry]
  rw [hred, hloop]
  by_cases hb : (ldapLoop uname pw rest).1 = true
  · simp [hb]
  · simp only [Bool.not_eq_true] at hb
    simp [hb]

/-- Witness for C3 (amended): `ldap1`'s search finds nothing, `ldap2`
rejects the bind; the backend continued past `ldap1` and, authentication
having failed overall, the search-failure line is in the log. -/
theorem ldap_search_failure_recorded_and_continues_witness :
    (ldapAuthenticate testDb (some "alice") (some "pw")
        [(srvA, behaviorSearchMiss), (srvB, behaviorReject)]).2.1 =
      "ldap1" :: (ldapLoop "alice" "pw" [(srvB, behaviorReject)]).2.1 ∧
    LogEntry.searchNoResults "alice" "ldap1" ∈
      (ldapAuthenticate testDb (some "alice") (some "pw")
        [(srvA, behaviorSearchMiss), (srvB, behaviorReject)]).2.2 := by
  have h := ldap_search_failure_recorded_and_continues testDb "alice" "pw" testAlice
      srvA behaviorSearchMiss [(srvB, behaviorReject)]
      (by decide) (by decide) (by decide) (by decide) rfl (fun _ _ _ => rfl) rfl
  exact ⟨h.1, h.2 (by decide)⟩
